import Mathlib

/-!
# potfit: the configuration headers `potfit.h` and `kim/kim.h`

Both headers are programs for the C preprocessor: which macros are defined,
with which replacement lists, and which declarations reach the compiler
depends on the symbols a build predefines (`-DEAM`, `-DMPI`, ...).

The embedding is shallow. A build is a record of the predefined symbols; each
macro the headers define becomes a function of the build, each `#if` group an
`if`, and each section of declarations the list of the text lines it emits,
macros replaced. Source line numbers are given next to every line. The helper
macros `MAX`, `MIN`, `SPROD` and `SWAP` (lines 136-139) are not used by the
headers and are left out; the first inclusion of each header is described, so the include
guards are open.

The headers only declare the routines of the engine (`calc_forces`, the spline
evaluators, `PublishCutoff`, `get_neigh`). The neighbor protocol of the bridge
(`PublishCutoff`, `get_neigh`) is modelled from the specification and marked so.
-/

namespace Potfit

/-! ## Tokens and builds -/

/-- A preprocessing token of an emitted line: an identifier, keyword,
punctuator or non-integer number as text, an integer constant, or a string
literal (its contents as written, without the quotes). -/
inductive Tok
  | txt (s : String)
  | int (n : Nat)
  | str (s : String)
  deriving DecidableEq, Repr

/-- The symbols that a build predefines on the compiler command line to select
the interaction model and the options, and that the headers test. The symbols
the headers define themselves (`THREEBODY`, `SLOTS`, `EXTERN`, ...) are taken
not to be predefined. -/
structure Build where
  PAIR : Bool
  EAM : Bool
  TBEAM : Bool
  ADP : Bool
  COULOMB : Bool
  DIPOLE : Bool
  MEAM : Bool
  STIWEB : Bool
  TERSOFF : Bool
  TERSOFFMOD : Bool
  MPI : Bool
  MAIN : Bool
  APOT : Bool
  EVO : Bool
  STRESS : Bool
  CONTRIB : Bool
  deriving DecidableEq, Repr

/-! ## `potfit.h`, lines 58-162: the macros -/

/-- Lines 58-61: `THREEBODY` is defined by line 60. -/
def THREEBODY (b : Build) : Bool :=
  if b.MEAM || b.STIWEB || b.TERSOFF then true else false

/-- Lines 63-66: whether `EAM` is defined from line 67 on, predefined by the
build or defined by line 65. -/
def EAM (b : Build) : Bool :=
  if b.TBEAM && !b.EAM then true else b.EAM

/-- Lines 68-71: the replacement list of `APOT_STEPS`, if defined. -/
def APOT_STEPS (b : Build) : Option (List Tok) :=
  if b.APOT then some [.int 500] else none

/-- Lines 68-71: the replacement list of `APOT_PUNISH`, if defined. -/
def APOT_PUNISH (b : Build) : Option (List Tok) :=
  if b.APOT then some [.txt "10e6"] else none

/-- Lines 73-75: the replacement list of `DUMMY_WEIGHT`, if defined. -/
def DUMMY_WEIGHT (b : Build) : Option (List Tok) :=
  if EAM b || b.ADP || b.MEAM then some [.txt "100.0"] else none

/-- Line 77. -/
def FORCE_EPS : List Tok := [.txt "0.1"]

/-- Lines 119-134: the value of `SLOTS` after the last redefinition. -/
def SLOTS (b : Build) : Nat :=
  let s := 1                                      -- 119
  let s := if EAM b || b.STIWEB then 2 else s     -- 121-124
  let s := if b.TBEAM || b.MEAM then 3 else s     -- 126-129
  let s := if b.ADP then 4 else s                 -- 131-134
  s

/-- Lines 156-162: the replacement list of `EXTERN`. -/
def EXTERN (b : Build) : List Tok :=
  if b.MAIN then [] else [.txt "extern"]

/-- Lines 156-162: the replacement of `INIT(data)`. -/
def INIT (b : Build) (data : List Tok) : List Tok :=
  if b.MAIN then .txt "=" :: data else []

/-! ## `potfit.h`, lines 164-431: the declarations -/

/-- Lines 164-175 of `potfit.h`: system variables. -/
def system_variables (b : Build) : List (List Tok) :=
  [EXTERN b ++ [.txt "int", .txt "myid"] ++ INIT b [.int 0] ++ [.txt ";"],  -- 165
   EXTERN b ++ [.txt "int", .txt "num_cpus"] ++ INIT b [.int 1] ++ [.txt ";"]] ++  -- 166
  (if b.MPI then  -- 167
      [EXTERN b ++ [.txt "MPI_Datatype", .txt "MPI_ATOM", .txt ";"],  -- 168
       EXTERN b ++ [.txt "MPI_Datatype", .txt "MPI_NEIGH", .txt ";"]] ++  -- 169
      (if THREEBODY b then  -- 170
          [EXTERN b ++ [.txt "MPI_Datatype", .txt "MPI_ANGL", .txt ";"]]  -- 171
       else []) ++  -- 172
      [EXTERN b ++ [.txt "MPI_Datatype", .txt "MPI_STENS", .txt ";"],  -- 173
       EXTERN b ++ [.txt "MPI_Datatype", .txt "MPI_VECTOR", .txt ";"]]  -- 174
   else [])  -- 175

/-- Lines 177-213: general settings (from the parameter file). -/
def general_settings (b : Build) : List (List Tok) :=
  [EXTERN b ++ [.txt "char", .txt "config", .txt "[", .int 255, .txt "]"] ++ INIT b [.str "\\0"] ++ [.txt ";"],  -- 178
   EXTERN b ++ [.txt "char", .txt "distfile", .txt "[", .int 255, .txt "]"] ++ INIT b [.str "\\0"] ++ [.txt ";"],  -- 179
   EXTERN b ++ [.txt "char", .txt "endpot", .txt "[", .int 255, .txt "]"] ++ INIT b [.str "\\0"] ++ [.txt ";"],  -- 180
   EXTERN b ++ [.txt "char", .txt "flagfile", .txt "[", .int 255, .txt "]"] ++ INIT b [.str "\\0"] ++ [.txt ";"],  -- 181
   EXTERN b ++ [.txt "char", .txt "imdpot", .txt "[", .int 255, .txt "]"] ++ INIT b [.str "\\0"] ++ [.txt ";"],  -- 182
   EXTERN b ++ [.txt "char", .txt "maxchfile", .txt "[", .int 255, .txt "]"] ++ INIT b [.str "\\0"] ++ [.txt ";"],  -- 183
   EXTERN b ++ [.txt "char", .txt "output_prefix", .txt "[", .int 255, .txt "]"] ++ INIT b [.str "\\0"] ++ [.txt ";"],  -- 184
   EXTERN b ++ [.txt "char", .txt "output_lammps", .txt "[", .int 255, .txt "]"] ++ INIT b [.str "\\0"] ++ [.txt ";"],  -- 185
   EXTERN b ++ [.txt "char", .txt "plotfile", .txt "[", .int 255, .txt "]"] ++ INIT b [.str "\\0"] ++ [.txt ";"],  -- 186
   EXTERN b ++ [.txt "char", .txt "plotpointfile", .txt "[", .int 255, .txt "]"] ++ INIT b [.str "\\0"] ++ [.txt ";"],  -- 187
   EXTERN b ++ [.txt "char", .txt "startpot", .txt "[", .int 255, .txt "]"] ++ INIT b [.str "\\0"] ++ [.txt ";"],  -- 188
   EXTERN b ++ [.txt "char", .txt "tempfile", .txt "[", .int 255, .txt "]"] ++ INIT b [.str "\\0"] ++ [.txt ";"],  -- 189
   EXTERN b ++ [.txt "int", .txt "imdpotsteps"] ++ INIT b [.int 1000] ++ [.txt ";"],  -- 190
   EXTERN b ++ [.txt "int", .txt "ntypes"] ++ INIT b [.txt "-", .int 1] ++ [.txt ";"],  -- 191
   EXTERN b ++ [.txt "int", .txt "opt"] ++ INIT b [.int 0] ++ [.txt ";"],  -- 192
   EXTERN b ++ [.txt "int", .txt "seed"] ++ INIT b [.int 4] ++ [.txt ";"],  -- 193
   EXTERN b ++ [.txt "int", .txt "usemaxch"] ++ INIT b [.int 0] ++ [.txt ";"],  -- 194
   EXTERN b ++ [.txt "int", .txt "write_output_files"] ++ INIT b [.int 0] ++ [.txt ";"],  -- 195
   EXTERN b ++ [.txt "int", .txt "write_lammps_files"] ++ INIT b [.int 0] ++ [.txt ";"],  -- 196
   EXTERN b ++ [.txt "int", .txt "write_pair"] ++ INIT b [.int 0] ++ [.txt ";"],  -- 197
   EXTERN b ++ [.txt "int", .txt "writeimd"] ++ INIT b [.int 0] ++ [.txt ";"],  -- 198
   EXTERN b ++ [.txt "int", .txt "write_lammps"] ++ INIT b [.int 0] ++ [.txt ";"]] ++  -- 199
  (if b.EVO then  -- 200
      [EXTERN b ++ [.txt "double", .txt "evo_threshold"] ++ INIT b [.txt "1.e-6"] ++ [.txt ";"]]  -- 201
   else  -- 202
      [EXTERN b ++ [.txt "char", .txt "anneal_temp", .txt "[", .int 20, .txt "]"] ++ INIT b [.str "\\0"] ++ [.txt ";"]]) ++  -- 203, 204
  [EXTERN b ++ [.txt "double", .txt "eweight"] ++ INIT b [.txt "-", .txt "1.0"] ++ [.txt ";"],  -- 205
   EXTERN b ++ [.txt "double", .txt "sweight"] ++ INIT b [.txt "-", .txt "1.0"] ++ [.txt ";"],  -- 206
   EXTERN b ++ [.txt "double", .txt "extend"] ++ INIT b [.txt "2.0"] ++ [.txt ";"]] ++  -- 207
  (if b.APOT then  -- 208
      [EXTERN b ++ [.txt "int", .txt "compnodes"] ++ INIT b [.int 0] ++ [.txt ";"],  -- 209
       EXTERN b ++ [.txt "int", .txt "enable_cp"] ++ INIT b [.int 0] ++ [.txt ";"],  -- 210
       EXTERN b ++ [.txt "double", .txt "apot_punish_value"] ++ INIT b [.txt "0.0"] ++ [.txt ";"],  -- 211
       EXTERN b ++ [.txt "double", .txt "plotmin"] ++ INIT b [.txt "0.0"] ++ [.txt ";"]]  -- 212
   else [])  -- 213

/-- Lines 215-258: configurations. -/
def configurations (b : Build) : List (List Tok) :=
  [EXTERN b ++ [.txt "atom_t", .txt "*", .txt "atoms", .txt ";"],  -- 216
   EXTERN b ++ [.txt "atom_t", .txt "*", .txt "conf_atoms", .txt ";"],  -- 217
   EXTERN b ++ [.txt "char", .txt "*", .txt "*", .txt "elements", .txt ";"],  -- 218
   EXTERN b ++ [.txt "int", .txt "*", .txt "*", .txt "na_type", .txt ";"],  -- 219
   EXTERN b ++ [.txt "int", .txt "*", .txt "cnfstart", .txt ";"],  -- 220
   EXTERN b ++ [.txt "int", .txt "*", .txt "conf_uf", .txt ";"]] ++  -- 221
  (if b.STRESS then  -- 222
      [EXTERN b ++ [.txt "int", .txt "*", .txt "conf_us", .txt ";"]]  -- 223
   else []) ++  -- 224
  [EXTERN b ++ [.txt "int", .txt "*", .txt "inconf", .txt ";"],  -- 225
   EXTERN b ++ [.txt "int", .txt "*", .txt "useforce", .txt ";"]] ++  -- 226
  (if b.STRESS then  -- 227
      [EXTERN b ++ [.txt "int", .txt "*", .txt "usestress", .txt ";"]]  -- 228
   else []) ++  -- 229
  [EXTERN b ++ [.txt "int", .txt "have_elements"] ++ INIT b [.int 0] ++ [.txt ";"],  -- 230
   EXTERN b ++ [.txt "int", .txt "natoms"] ++ INIT b [.int 0] ++ [.txt ";"],  -- 231
   EXTERN b ++ [.txt "int", .txt "nconf"] ++ INIT b [.int 0] ++ [.txt ";"]] ++  -- 232
  (if b.CONTRIB then  -- 233
      [EXTERN b ++ [.txt "int", .txt "have_contrib_box"] ++ INIT b [.int 0] ++ [.txt ";"],  -- 234
       EXTERN b ++ [.txt "int", .txt "n_spheres"] ++ INIT b [.int 0] ++ [.txt ";"],  -- 235
       EXTERN b ++ [.txt "double", .txt "*", .txt "r_spheres", .txt ";"]]  -- 236
   else []) ++  -- 237
  [EXTERN b ++ [.txt "double", .txt "global_cell_scale"] ++ INIT b [.txt "1.0"] ++ [.txt ";"],  -- 238
   EXTERN b ++ [.txt "double", .txt "*", .txt "coheng", .txt ";"],  -- 239
   EXTERN b ++ [.txt "double", .txt "*", .txt "conf_vol", .txt ";"],  -- 240
   EXTERN b ++ [.txt "double", .txt "*", .txt "conf_weight", .txt ";"],  -- 241
   EXTERN b ++ [.txt "double", .txt "*", .txt "force_0", .txt ";"],  -- 242
   EXTERN b ++ [.txt "double", .txt "*", .txt "rcut", .txt ";"],  -- 243
   EXTERN b ++ [.txt "double", .txt "*", .txt "rmin", .txt ";"],  -- 244
   EXTERN b ++ [.txt "double", .txt "*", .txt "volume", .txt ";"],  -- 245
   EXTERN b ++ [.txt "double", .txt "rcutmin"] ++ INIT b [.txt "999.9"] ++ [.txt ";"],  -- 246
   EXTERN b ++ [.txt "double", .txt "rcutmax"] ++ INIT b [.txt "0.0"] ++ [.txt ";"]] ++  -- 247
  (if b.STRESS then  -- 248
      [EXTERN b ++ [.txt "sym_tens", .txt "*", .txt "conf_stress", .txt ";"],  -- 249
       EXTERN b ++ [.txt "sym_tens", .txt "*", .txt "stress", .txt ";"]]  -- 250
   else []) ++  -- 251
  [EXTERN b ++ [.txt "vector", .txt "box_x", .txt ",", .txt "box_y", .txt ",", .txt "box_z", .txt ";"]] ++  -- 252
  (if b.CONTRIB then  -- 253
      [EXTERN b ++ [.txt "vector", .txt "cbox_o", .txt ";"],  -- 254
       EXTERN b ++ [.txt "vector", .txt "cbox_a", .txt ",", .txt "cbox_b", .txt ",", .txt "cbox_c", .txt ";"],  -- 255
       EXTERN b ++ [.txt "vector", .txt "*", .txt "sphere_centers", .txt ";"]]  -- 256
   else []) ++  -- 257
  [EXTERN b ++ [.txt "vector", .txt "tbox_x", .txt ",", .txt "tbox_y", .txt ",", .txt "tbox_z", .txt ";"]]  -- 258

/-- Lines 260-283: potential variables and potential tables. -/
def potential_variables (b : Build) : List (List Tok) :=
  [EXTERN b ++ [.txt "int", .txt "*", .txt "gradient", .txt ";"],  -- 261
   EXTERN b ++ [.txt "int", .txt "*", .txt "invar_pot", .txt ";"],  -- 262
   EXTERN b ++ [.txt "int", .txt "format"] ++ INIT b [.txt "-", .int 1] ++ [.txt ";"],  -- 263
   EXTERN b ++ [.txt "int", .txt "have_grad"] ++ INIT b [.int 0] ++ [.txt ";"],  -- 264
   EXTERN b ++ [.txt "int", .txt "have_invar"] ++ INIT b [.int 0] ++ [.txt ";"]] ++  -- 265
  (if b.APOT then  -- 266
      [EXTERN b ++ [.txt "int", .txt "*", .txt "smooth_pot", .txt ";"],  -- 267
       EXTERN b ++ [.txt "int", .txt "cp_start"] ++ INIT b [.int 0] ++ [.txt ";"],  -- 268
       EXTERN b ++ [.txt "int", .txt "global_idx"] ++ INIT b [.int 0] ++ [.txt ";"],  -- 269
       EXTERN b ++ [.txt "int", .txt "global_pot"] ++ INIT b [.int 0] ++ [.txt ";"],  -- 270
       EXTERN b ++ [.txt "int", .txt "have_globals"] ++ INIT b [.int 0] ++ [.txt ";"],  -- 271
       EXTERN b ++ [.txt "double", .txt "*", .txt "calc_list", .txt ";"],  -- 272
       EXTERN b ++ [.txt "double", .txt "*", .txt "compnodelist", .txt ";"]]  -- 273
   else []) ++  -- 274
  [EXTERN b ++ [.txt "pot_table_t", .txt "opt_pot", .txt ";"],  -- 277
   EXTERN b ++ [.txt "pot_table_t", .txt "calc_pot", .txt ";"]] ++  -- 278
  (if b.APOT then  -- 279
      [EXTERN b ++ [.txt "apot_table_t", .txt "apot_table", .txt ";"],  -- 280
       EXTERN b ++ [.txt "int", .txt "n_functions"] ++ INIT b [.int 0] ++ [.txt ";"],  -- 281
       EXTERN b ++ [.txt "function_table_t", .txt "function_table", .txt ";"]]  -- 282
   else [])  -- 283

/-- Lines 285-297: optimization variables and general variables. -/
def optimization_variables (b : Build) : List (List Tok) :=
  [EXTERN b ++ [.txt "int", .txt "fcalls"] ++ INIT b [.int 0] ++ [.txt ";"],  -- 286
   EXTERN b ++ [.txt "int", .txt "mdim"] ++ INIT b [.int 0] ++ [.txt ";"],  -- 287
   EXTERN b ++ [.txt "int", .txt "ndim"] ++ INIT b [.int 0] ++ [.txt ";"],  -- 288
   EXTERN b ++ [.txt "int", .txt "ndimtot"] ++ INIT b [.int 0] ++ [.txt ";"],  -- 289
   EXTERN b ++ [.txt "int", .txt "paircol"] ++ INIT b [.int 0] ++ [.txt ";"],  -- 290
   EXTERN b ++ [.txt "double", .txt "d_eps"] ++ INIT b [.txt "1e-6"] ++ [.txt ";"],  -- 291
   EXTERN b ++ [.txt "int", .txt "firstatom"] ++ INIT b [.int 0] ++ [.txt ";"],  -- 294
   EXTERN b ++ [.txt "int", .txt "firstconf"] ++ INIT b [.int 0] ++ [.txt ";"],  -- 295
   EXTERN b ++ [.txt "int", .txt "myatoms"] ++ INIT b [.int 0] ++ [.txt ";"],  -- 296
   EXTERN b ++ [.txt "int", .txt "myconf"] ++ INIT b [.int 0] ++ [.txt ";"]]  -- 297

/-- Lines 299-311: pointers for the force vector. -/
def force_vector_pointers (b : Build) : List (List Tok) :=
  [EXTERN b ++ [.txt "int", .txt "energy_p"] ++ INIT b [.int 0] ++ [.txt ";"]] ++  -- 300
  (if b.STRESS then  -- 301
      [EXTERN b ++ [.txt "int", .txt "stress_p"] ++ INIT b [.int 0] ++ [.txt ";"]]  -- 302
   else []) ++  -- 303
  (if EAM b || b.ADP || b.MEAM then  -- 304
      [EXTERN b ++ [.txt "int", .txt "dummy_p"] ++ INIT b [.int 0] ++ [.txt ";"],  -- 305
       EXTERN b ++ [.txt "int", .txt "limit_p"] ++ INIT b [.int 0] ++ [.txt ";"]]  -- 306
   else []) ++  -- 307
  (if b.APOT then  -- 308
      [EXTERN b ++ [.txt "int", .txt "punish_par_p"] ++ INIT b [.int 0] ++ [.txt ";"],  -- 309
       EXTERN b ++ [.txt "int", .txt "punish_pot_p"] ++ INIT b [.int 0] ++ [.txt ";"]]  -- 310
   else [])  -- 311

/-- Lines 313-325: memory management and the atom distribution with MPI. -/
def memory_and_mpi (b : Build) : List (List Tok) :=
  [EXTERN b ++ [.txt "char", .txt "*", .txt "*", .txt "pointer_names", .txt ";"],  -- 314
   EXTERN b ++ [.txt "int", .txt "num_pointers"] ++ INIT b [.int 0] ++ [.txt ";"],  -- 315
   EXTERN b ++ [.txt "void", .txt "*", .txt "*", .txt "all_pointers", .txt ";"],  -- 316
   EXTERN b ++ [.txt "double", .txt "*", .txt "u_address", .txt ";"]] ++  -- 317
  (if b.MPI then  -- 320
      [EXTERN b ++ [.txt "int", .txt "*", .txt "atom_dist", .txt ";"],  -- 321
       EXTERN b ++ [.txt "int", .txt "*", .txt "atom_len", .txt ";"],  -- 322
       EXTERN b ++ [.txt "int", .txt "*", .txt "conf_dist", .txt ";"],  -- 323
       EXTERN b ++ [.txt "int", .txt "*", .txt "conf_len", .txt ";"]]  -- 324
   else [])  -- 325

/-- Lines 327-336: miscellaneous variables. -/
def misc_variables (b : Build) : List (List Tok) :=
  [EXTERN b ++ [.txt "int", .txt "*", .txt "idx", .txt ";"],  -- 328
   EXTERN b ++ [.txt "int", .txt "init_done"] ++ INIT b [.int 0] ++ [.txt ";"],  -- 329
   EXTERN b ++ [.txt "int", .txt "plot"] ++ INIT b [.int 0] ++ [.txt ";"]] ++  -- 330
  (if EAM b || b.ADP || b.MEAM then  -- 331
      [EXTERN b ++ [.txt "double", .txt "*", .txt "lambda", .txt ";"]]  -- 332
   else []) ++  -- 333
  [EXTERN b ++ [.txt "double", .txt "*", .txt "maxchange", .txt ";"],  -- 334
   EXTERN b ++ [.txt "dsfmt_t", .txt "dsfmt", .txt ";"],  -- 335
   EXTERN b ++ [.txt "char", .txt "*", .txt "component", .txt "[", .int 6, .txt "]", .txt ";"]]  -- 336

/-- Lines 338-346: variables needed for the electrostatic options. -/
def electrostatic_variables (b : Build) : List (List Tok) :=
  (if b.COULOMB then  -- 339
      [EXTERN b ++ [.txt "double", .txt "dp_eps"] ++ INIT b [.txt "14.40"] ++ [.txt ";"],  -- 340
       EXTERN b ++ [.txt "double", .txt "dp_cut"] ++ INIT b [.txt "10.0"] ++ [.txt ";"]]  -- 341
   else []) ++  -- 342
  (if b.DIPOLE then  -- 343
      [EXTERN b ++ [.txt "double", .txt "dp_tol"] ++ INIT b [.txt "1.0e-7"] ++ [.txt ";"],  -- 344
       EXTERN b ++ [.txt "double", .txt "dp_mix"] ++ INIT b [.txt "0.2"] ++ [.txt ";"]]  -- 345
   else [])  -- 346

/-- Lines 354-362: global function pointers. -/
def function_pointers (b : Build) : List (List Tok) :=
  [EXTERN b ++ [.txt "double", .txt "calc_forces", .txt "(", .txt "double", .txt "*", .txt ",", .txt "double", .txt "*", .txt ",", .txt "int", .txt ")", .txt ";"],  -- 354
   EXTERN b ++ [.txt "double", .txt "(", .txt "*", .txt "splint", .txt ")", .txt "(", .txt "pot_table_t", .txt "*", .txt ",", .txt "double", .txt "*", .txt ",", .txt "int", .txt ",", .txt "double", .txt ")", .txt ";"],  -- 355
   EXTERN b ++ [.txt "double", .txt "(", .txt "*", .txt "splint_grad", .txt ")", .txt "(", .txt "pot_table_t", .txt "*", .txt ",", .txt "double", .txt "*", .txt ",", .txt "int", .txt ",", .txt "double", .txt ")", .txt ";"],  -- 356
   EXTERN b ++ [.txt "double", .txt "(", .txt "*", .txt "splint_comb", .txt ")", .txt "(", .txt "pot_table_t", .txt "*", .txt ",", .txt "double", .txt "*", .txt ",", .txt "int", .txt ",", .txt "double", .txt ",", .txt "double", .txt "*", .txt ")", .txt ";"]] ++  -- 357
  (if b.APOT then  -- 358
      [EXTERN b ++ [.txt "void", .txt "(", .txt "*", .txt "write_pot_table", .txt ")", .txt "(", .txt "apot_table_t", .txt "*", .txt ",", .txt "char", .txt "*", .txt ")", .txt ";"]]  -- 359
   else  -- 360
      [EXTERN b ++ [.txt "void", .txt "(", .txt "*", .txt "write_pot_table", .txt ")", .txt "(", .txt "pot_table_t", .txt "*", .txt ",", .txt "char", .txt "*", .txt ")", .txt ";"]])  -- 361, 362

/-- Lines 370-386: function prototypes. -/
def function_prototypes (_b : Build) : List (List Tok) :=
  [[.txt "void", .txt "error", .txt "(", .txt "int", .txt ",", .txt "char", .txt "*", .txt ",", .txt "...", .txt ")", .txt ";"],  -- 371
   [.txt "void", .txt "warning", .txt "(", .txt "char", .txt "*", .txt ",", .txt "...", .txt ")", .txt ";"],  -- 372
   [.txt "void", .txt "write_errors", .txt "(", .txt "double", .txt "*", .txt ",", .txt "double", .txt ")", .txt ";"],  -- 375
   [.txt "int", .txt "getparam", .txt "(", .txt "char", .txt "*", .txt ",", .txt "void", .txt "*", .txt ",", .txt "param_t", .txt ",", .txt "int", .txt ",", .txt "int", .txt ")", .txt ";"],  -- 378
   [.txt "void", .txt "check_parameters_complete", .txt "(", .txt "char", .txt "*", .txt ")", .txt ";"],  -- 379
   [.txt "void", .txt "read_parameters", .txt "(", .txt "int", .txt ",", .txt "char", .txt "*", .txt "*", .txt ")", .txt ";"],  -- 380
   [.txt "void", .txt "read_paramfile", .txt "(", .txt "FILE", .txt "*", .txt ")", .txt ";"],  -- 381
   [.txt "void", .txt "set_forces", .txt "(", .txt ")", .txt ";"],  -- 384
   [.txt "void", .txt "init_forces", .txt "(", .txt ")", .txt ";"],  -- 385
   [.txt "void", .txt "set_force_vector_pointers", .txt "(", .txt ")", .txt ";"]]  -- 386

/-- Lines 388-415: force routines for the different potential models. -/
def interaction (b : Build) : List (List Tok) :=
  (if b.PAIR then  -- 389
      [EXTERN b ++ [.txt "const", .txt "char", .txt "interaction_name", .txt "[", .int 5, .txt "]"] ++ INIT b [.str "PAIR"] ++ [.txt ";"]]  -- 390
   else
    (if EAM b && !b.COULOMB then  -- 391
        (if !b.TBEAM then  -- 392
            [EXTERN b ++ [.txt "const", .txt "char", .txt "interaction_name", .txt "[", .int 4, .txt "]"] ++ INIT b [.str "EAM"] ++ [.txt ";"]]  -- 393
         else  -- 394
            [EXTERN b ++ [.txt "const", .txt "char", .txt "interaction_name", .txt "[", .int 6, .txt "]"] ++ INIT b [.str "TBEAM"] ++ [.txt ";"]])  -- 395, 396
     else
      (if b.ADP then  -- 397
          [EXTERN b ++ [.txt "const", .txt "char", .txt "interaction_name", .txt "[", .int 4, .txt "]"] ++ INIT b [.str "ADP"] ++ [.txt ";"]]  -- 398
       else
        (if b.COULOMB && !EAM b then  -- 399
            [EXTERN b ++ [.txt "const", .txt "char", .txt "interaction_name", .txt "[", .int 7, .txt "]"] ++ INIT b [.str "ELSTAT"] ++ [.txt ";"]]  -- 400
         else
          (if b.COULOMB && EAM b then  -- 401
              [EXTERN b ++ [.txt "const", .txt "char", .txt "interaction_name", .txt "[", .int 11, .txt "]"] ++ INIT b [.str "EAM_ELSTAT"] ++ [.txt ";"]]  -- 402
           else
            (if b.MEAM then  -- 403
                [EXTERN b ++ [.txt "const", .txt "char", .txt "interaction_name", .txt "[", .int 5, .txt "]"] ++ INIT b [.str "MEAM"] ++ [.txt ";"]]  -- 404
             else
              (if b.STIWEB then  -- 405
                  [EXTERN b ++ [.txt "const", .txt "char", .txt "interaction_name", .txt "[", .int 7, .txt "]"] ++ INIT b [.str "STIWEB"] ++ [.txt ";"],  -- 406
                   [.txt "void", .txt "update_stiweb_pointers", .txt "(", .txt "double", .txt "*", .txt ")", .txt ";"]]  -- 407
               else
                (if b.TERSOFF then  -- 408
                    (if b.TERSOFFMOD then  -- 409
                        [EXTERN b ++ [.txt "const", .txt "char", .txt "interaction_name", .txt "[", .int 11, .txt "]"] ++ INIT b [.str "TERSOFFMOD"] ++ [.txt ";"]]  -- 410
                     else  -- 411
                        [EXTERN b ++ [.txt "const", .txt "char", .txt "interaction_name", .txt "[", .int 8, .txt "]"] ++ INIT b [.str "TERSOFF"] ++ [.txt ";"]]) ++  -- 412, 413
                    [[.txt "void", .txt "update_tersoff_pointers", .txt "(", .txt "double", .txt "*", .txt ")", .txt ";"]]  -- 414
                 else []))))))))  -- 415

/-- Lines 417-431: rescaling functions and MPI parallelization. -/
def rescale_and_mpi (b : Build) : List (List Tok) :=
  (if !b.APOT && (EAM b || b.MEAM) then  -- 418
      [[.txt "double", .txt "rescale", .txt "(", .txt "pot_table_t", .txt "*", .txt ",", .txt "double", .txt ",", .txt "int", .txt ")", .txt ";"],  -- 419
       [.txt "void", .txt "embed_shift", .txt "(", .txt "pot_table_t", .txt "*", .txt ")", .txt ";"]]  -- 420
   else []) ++  -- 421
  (if b.MPI then  -- 424
      [[.txt "void", .txt "init_mpi", .txt "(", .txt "int", .txt ",", .txt "char", .txt "*", .txt "*", .txt ")", .txt ";"],  -- 425
       [.txt "void", .txt "shutdown_mpi", .txt "(", .txt "void", .txt ")", .txt ";"],  -- 426
       [.txt "void", .txt "broadcast_params", .txt "(", .txt "void", .txt ")", .txt ";"],  -- 427
       [.txt "void", .txt "broadcast_neighbors", .txt "(", .txt "void", .txt ")", .txt ";"],  -- 428
       [.txt "void", .txt "broadcast_angles", .txt "(", .txt "void", .txt ")", .txt ";"],  -- 429
       [.txt "void", .txt "potsync", .txt "(", .txt "void", .txt ")", .txt ";"]]  -- 430
   else [])  -- 431

/-- The text of `kim/kim.h` (lines 20-86) in a translation unit that has read
`potfit.h`, so that `EAM` is also the symbol of line 65 there. The included KIM
API headers are left out. -/
def kim_h (b : Build) : List (List Tok) :=
  [[.txt "typedef", .txt "struct"],  -- 23
   [.txt "\x7b"],  -- 24
   [.txt "int", .txt "iteratorId", .txt ";"],  -- 25
   [.txt "int", .txt "*", .txt "NNeighbors", .txt ";"],  -- 26
   [.txt "int", .txt "*", .txt "neighborList", .txt ";"],  -- 27
   [.txt "double", .txt "*", .txt "RijList", .txt ";"],  -- 28
   [.txt "int", .txt "*", .txt "BeginIdx", .txt ";"],  -- 29
   [.txt "\x7d", .txt "NeighObjectType", .txt ";"],  -- 31
   [.txt "typedef", .txt "struct"],  -- 33
   [.txt "\x7b"],  -- 34
   [.txt "char", .txt "*", .txt "*", .txt "name", .txt ";"],  -- 35
   [.txt "double", .txt "*", .txt "*", .txt "value", .txt ";"],  -- 36
   [.txt "double", .txt "*", .txt "*", .txt "nestedvalue", .txt ";"],  -- 37
   [.txt "int", .txt "*", .txt "rank", .txt ";"],  -- 39
   [.txt "int", .txt "*", .txt "*", .txt "shape", .txt ";"],  -- 40
   [.txt "int", .txt "Nparam", .txt ";"],  -- 41
   [.txt "\x7d", .txt "OptParamType", .txt ";"],  -- 42
   [.txt "OptParamType", .txt "*", .txt "OptParamAllConfig", .txt ";"],  -- 44
   [.txt "void", .txt "InitKIM", .txt "(", .txt ")", .txt ";"],  -- 50
   [.txt "void", .txt "FreeKIM", .txt "(", .txt ")", .txt ";"],  -- 52
   [.txt "int", .txt "InitObject", .txt "(", .txt ")", .txt ";"],  -- 54
   [.txt "int", .txt "get_OptimizableParamInfo", .txt "(", .txt "void", .txt "*", .txt "pkim", .txt ",", .txt "OptParamType", .txt "*", .txt "OptParam", .txt ")", .txt ";"],  -- 56
   [.txt "int", .txt "nest_OptimizableParamValue", .txt "(", .txt "void", .txt "*", .txt "pkim", .txt ",", .txt "OptParamType", .txt "*", .txt "OptParam", .txt ",", .txt "int", .txt "inlcude_cutoff", .txt ")", .txt ";"],  -- 58
   [.txt "int", .txt "PublishCutoff", .txt "(", .txt "void", .txt "*", .txt "pkim", .txt ",", .txt "double", .txt "cutoff", .txt ")", .txt ";"],  -- 60
   [.txt "int", .txt "CreateKIMObj", .txt "(", .txt "void", .txt "*", .txt "pkim", .txt ",", .txt "int", .txt "Natoms", .txt ",", .txt "int", .txt "Nspecies", .txt ",", .txt "int", .txt "start", .txt ")", .txt ";"],  -- 62
   [.txt "int", .txt "get_neigh", .txt "(", .txt "void", .txt "*", .txt "kimmdl", .txt ",", .txt "int", .txt "*", .txt "mode", .txt ",", .txt "int", .txt "*", .txt "request", .txt ",", .txt "int", .txt "*", .txt "part", .txt ","],  -- 64
   [.txt "int", .txt "*", .txt "numnei", .txt ",", .txt "int", .txt "*", .txt "*", .txt "nei1part", .txt ",", .txt "double", .txt "*", .txt "*", .txt "Rij", .txt ")", .txt ";"],  -- 65
   [.txt "int", .txt "CalcForce", .txt "(", .txt "void", .txt "*", .txt "pkim", .txt ",", .txt "double", .txt "*", .txt "*", .txt "energy", .txt ",", .txt "double", .txt "*", .txt "*", .txt "force", .txt ",", .txt "double", .txt "*", .txt "*", .txt "virial", .txt ","],  -- 67
   [.txt "int", .txt "useforce", .txt ",", .txt "int", .txt "usestress", .txt ")", .txt ";"],  -- 68
   [.txt "int", .txt "get_OptimizableParamSize", .txt "(", .txt ")", .txt ";"],  -- 70
   [.txt "int", .txt "PublishParam", .txt "(", .txt "void", .txt "*", .txt "pkim", .txt ",", .txt "OptParamType", .txt "*", .txt "FreeParam", .txt ",", .txt "double", .txt "*", .txt "PotTable", .txt ")", .txt ";"]] ++  -- 74
  (if b.PAIR then  -- 76
      [[.txt "int", .txt "AnalyticForce", .txt "(", .txt "double", .txt "epsilon", .txt ",", .txt "double", .txt "sigma", .txt ",", .txt "double", .txt "cutoff", .txt ","],  -- 78
       [.txt "double", .txt "r", .txt ",", .txt "double", .txt "*", .txt "phi_val", .txt ",", .txt "double", .txt "*", .txt "phi_grad", .txt ")", .txt ";"]]  -- 79
   else []) ++  -- 80
  (if EAM b then  -- 82
      [[.txt "int", .txt "CreateModel", .txt "(", .txt ")", .txt ";"],  -- 83
       [.txt "int", .txt "MakeModel", .txt "(", .txt ")", .txt ";"],  -- 84
       [.txt "int", .txt "CreateParamFileEAM", .txt "(", .txt ")", .txt ";"]]  -- 85
   else [])  -- 86

/-- Lines 164-362: the global variables and the global function pointers. -/
def globals (b : Build) : List (List Tok) :=
  system_variables b ++ general_settings b ++ configurations b ++ potential_variables b ++
  optimization_variables b ++ force_vector_pointers b ++ memory_and_mpi b ++ misc_variables b ++
  electrostatic_variables b ++ function_pointers b

/-- The text of `potfit.h` that reaches the compiler in a build. The files it
includes (`random.h`, `types.h`, the system headers) and the pragmas of lines
36-44 are left out. -/
def potfit_h (b : Build) : List (List Tok) :=
  globals b ++ function_prototypes b ++ interaction b ++ rescale_and_mpi b

/-! ## Questions about the emitted text -/

/-- Does the line mention the identifier `v`? -/
def mentions (v : String) (l : List Tok) : Bool :=
  l.any (fun t => t == .txt v)

/-- Does the text declare `v`, that is, does one of its lines mention it? -/
def declared (v : String) (text : List (List Tok)) : Bool :=
  text.any (mentions v)

/-- The lines of the text that mention `v`. -/
def declarations_of (v : String) (text : List (List Tok)) : List (List Tok) :=
  text.filter (mentions v)

/-! ## The interaction models of the `SLOTS` table -/

/-- The interaction models listed in the comment of lines 79-117. -/
inductive Model
  | PAIR | COULOMB | DIPOLE | TERSOFF | EAM | STIWEB | TBEAM | MEAM | ADP
  deriving DecidableEq, Repr

/-- Lines 89-115: the number of slots the comment documents for each model. -/
def documented_SLOTS : Model → Nat
  | .PAIR => 1      -- 89-91
  | .COULOMB => 1
  | .DIPOLE => 1
  | .TERSOFF => 1
  | .EAM => 2       -- 93
  | .STIWEB => 2    -- 97
  | .TBEAM => 3     -- 101
  | .MEAM => 3      -- 106
  | .ADP => 4       -- 111

/-- Is the symbol of the model predefined by the build? -/
def Build.selects (b : Build) : Model → Bool
  | .PAIR => b.PAIR
  | .COULOMB => b.COULOMB
  | .DIPOLE => b.DIPOLE
  | .TERSOFF => b.TERSOFF
  | .EAM => b.EAM
  | .STIWEB => b.STIWEB
  | .TBEAM => b.TBEAM
  | .MEAM => b.MEAM
  | .ADP => b.ADP

/-- The build selects the model `m` and no other model of the table. -/
def Build.selectsOnly (b : Build) (m : Model) : Prop :=
  ∀ k : Model, b.selects k = true ↔ k = m

/-- The build that predefines nothing. -/
def Build.plain : Build :=
  ⟨false, false, false, false, false, false, false, false, false, false, false, false, false,
    false, false, false⟩

/-! ## Atoms and their neighbor references

The entities of the Neighbor Context (specification, sections 3 and 4.3) from
which the external model bridge answers. -/

/-- The type `vector` of the declarations in lines 252-258, with the components
that the macro `SPROD` (line 138) reads. -/
structure vector where
  x : ℚ
  y : ℚ
  z : ℚ
  deriving DecidableEq

/-- Modelled from the spec: a neighbor reference of an atom (section 3), the
entry of the Neighbor Context that the force routine reads: the index of the
neighbor atom, the distance, and the unit vector towards the neighbor. -/
structure Neighbor where
  atom : Nat
  distance : ℚ
  direction : vector

/-- Modelled from the spec: an atom of a configuration with its neighbor
references (section 3). -/
structure Atom where
  neighbors : List Neighbor

/-! ## The neighbor protocol of the external model bridge

`kim/kim.h` declares the neighbor list object (lines 23-31) and the functions
`PublishCutoff` (line 60) and `get_neigh` (lines 64-65); their bodies are not
part of the headers. They are modelled here from the specification, sections
4.3, 4.7 and 6, over the neighbor references of the atoms. -/

/-- Lines 16-18 of `kim/kim.h`. -/
def DIM : Nat := 3

/-- Lines 23-31 of `kim/kim.h`: the neighbor list object. `BeginIdx` is the
position of the first neighbor of each atom in the neighbor list. The `int`
arrays hold counts, atom indices and positions, taken as natural numbers, and
the `double` array rationals. -/
structure NeighObjectType where
  iteratorId : Int
  NNeighbors : List Nat
  neighborList : List Nat
  RijList : List ℚ
  BeginIdx : List Nat

/-- Modelled from the spec: what the bridge keeps in the object behind `pkim`
(section 4.7), the published cutoff and the neighbor list object. -/
structure KimObject where
  cutoff : Option ℚ
  neighObject : Option NeighObjectType

/-- Modelled from the spec: `PublishCutoff` (line 60) publishes the cutoff as a
single scalar (section 6). A neighbor list lives until the cutoff changes
(section 3), so the neighbor list object is dropped. -/
def PublishCutoff (pkim : KimObject) (cutoff : ℚ) : KimObject :=
  { pkim with cutoff := some cutoff, neighObject := none }

/-- Modelled from the spec: the neighbors of an atom that the cutoff-radius
criterion keeps (section 4.3). -/
def within_cutoff (cutoff : ℚ) (a : Atom) : List Neighbor :=
  a.neighbors.filter (fun n => n.distance < cutoff)

/-- Modelled from the spec: the `BeginIdx` array of line 29, the position of the
first neighbor of each atom, for neighbor counts laid out one after the other
from `start`. -/
def begin_indices : List Nat → Nat → List Nat
  | [], _ => []
  | c :: cs, start => start :: begin_indices cs (start + c)

/-- Modelled from the spec: the `DIM` components of the vector from the atom to
its neighbor (section 4.3), as `RijList` (line 28) holds them. -/
def Rij (n : Neighbor) : List ℚ :=
  [n.distance * n.direction.x, n.distance * n.direction.y, n.distance * n.direction.z]

/-- Modelled from the spec: the neighbor-list setup of the bridge (sections 4.3
and 4.7). It needs the published cutoff, `none` is the protocol violation of
section 7. The engine counts atoms from 0 and the library is answered with atom
indices from 1 (section 6), so the neighbor list holds the indices plus one; the
iterator starts at its reset value. -/
def setup_neighbors (pkim : KimObject) (conf : List Atom) : Option KimObject :=
  match pkim.cutoff with
  | none => none
  | some c =>
    let kept := conf.map (within_cutoff c)
    let nl : NeighObjectType :=
      { iteratorId := -1
        NNeighbors := kept.map List.length
        neighborList := (kept.map (fun l => l.map (fun n => n.atom + 1))).flatten
        RijList := (kept.map (fun l => (l.map Rij).flatten)).flatten
        BeginIdx := begin_indices (kept.map List.length) 0 }
    some { pkim with neighObject := some nl }

/-- Modelled from the spec: the two addressing modes of a request (section 4.7),
which `get_neigh` receives through `mode` and `request` (line 64). A locator
request names its atom by the index from 1. -/
inductive Request
  | locator (atom : Nat)
  | iterator

/-- Modelled from the spec: what a request returns through `part`, `numnei`,
`nei1part` and `Rij` (lines 64-65), the atom, the number of its neighbors, and
the neighbors and their vectors read from where the returned pointers point. -/
structure Neighbors where
  part : Nat
  numnei : Nat
  nei1part : List Nat
  Rij : List ℚ

/-- Modelled from the spec: the outcome of a request (section 4.7), neighbors,
the end of the list in iterator mode, or a protocol violation (section 7). -/
inductive Reply
  | ok (n : Neighbors)
  | past_end
  | invalid

/-- Modelled from the spec: the neighbors of the atom at position `i` of the
engine as the neighbor list object holds them, `NNeighbors[i]` entries from
position `BeginIdx[i]` on; the atom is returned by its index from 1. -/
def neighbors_of (nl : NeighObjectType) (i : Nat) : Neighbors :=
  let numnei := nl.NNeighbors.getD i 0
  let idx := nl.BeginIdx.getD i 0
  ⟨i + 1, numnei, (nl.neighborList.drop idx).take numnei,
    (nl.RijList.drop (DIM * idx)).take (DIM * numnei)⟩

/-- Modelled from the spec: `get_neigh` (lines 64-65) answers from the neighbor
list object (section 4.7). A locator request returns the neighbors of the atom
it names; an iterator request advances to the next atom, and past the last atom
it signals the end of the list and wraps to the reset value. A request before
the neighbor-list setup, or for an atom out of range, is invalid (section 7). -/
def get_neigh (pkim : KimObject) (request : Request) : KimObject × Reply :=
  match pkim.neighObject with
  | none => (pkim, .invalid)
  | some nl =>
    match request with
    | .locator atom =>
      if 1 ≤ atom ∧ atom ≤ nl.NNeighbors.length then (pkim, .ok (neighbors_of nl (atom - 1)))
      else (pkim, .invalid)
    | .iterator =>
      let next := (nl.iteratorId + 1).toNat
      if next < nl.NNeighbors.length then
        ({ pkim with neighObject := some { nl with iteratorId := next } },
          .ok (neighbors_of nl next))
      else ({ pkim with neighObject := some { nl with iteratorId := -1 } }, .past_end)

/-! ## Theorems on the headers

### Evaluating questions about the text -/

theorem tok_beq (a b : Tok) : (a == b) = decide (a = b) := rfl

theorem any_ite {α : Type} (c : Prop) [Decidable c] (x y : List α) (p : α → Bool) :
    (if c then x else y).any p = if c then x.any p else y.any p := by
  split <;> rfl

theorem filter_ite {α : Type} (c : Prop) [Decidable c] (x y : List α) (p : α → Bool) :
    (if c then x else y).filter p = if c then x.filter p else y.filter p := by
  split <;> rfl

theorem countP_ite {α : Type} (c : Prop) [Decidable c] (x y : List α) (p : α → Bool) :
    (if c then x else y).countP p = if c then x.countP p else y.countP p := by
  split <;> rfl

theorem length_declarations_of (v : String) (t : List (List Tok)) :
    (declarations_of v t).length = t.countP (mentions v) := by
  simp [declarations_of, List.countP_eq_length_filter]

theorem all_ite {α : Type} (c : Prop) [Decidable c] (x y : List α) (p : α → Bool) :
    (if c then x else y).all p = if c then x.all p else y.all p := by
  split <;> rfl

theorem declarations_of_append (v : String) (s t : List (List Tok)) :
    declarations_of v (s ++ t) = declarations_of v s ++ declarations_of v t := by
  simp [declarations_of]

theorem declarations_of_eq_nil (v : String) (t : List (List Tok)) (h : declared v t = false) :
    declarations_of v t = [] := by
  simp only [declarations_of, List.filter_eq_nil_iff]
  intro l hl hm
  have : declared v t = true := List.any_eq_true.mpr ⟨l, hl, hm⟩
  simp [h] at this

/-- Outside lines 388-415 nothing mentions `interaction_name`. -/
theorem interaction_name_only_in_interaction (b : Build) :
    declarations_of "interaction_name" (potfit_h b) =
      declarations_of "interaction_name" (interaction b) := by
  have h1 : declared "interaction_name" (globals b) = false := by
    simp [declared, mentions, any_ite, tok_beq, globals, system_variables, general_settings,
      configurations, potential_variables, optimization_variables, force_vector_pointers,
      memory_and_mpi, misc_variables, electrostatic_variables, function_pointers, EXTERN, INIT]
  have h2 : declared "interaction_name" (function_prototypes b) = false := by
    simp [declared, mentions, tok_beq, function_prototypes]
  have h3 : declared "interaction_name" (rescale_and_mpi b) = false := by
    simp [declared, mentions, any_ite, tok_beq, rescale_and_mpi]
  simp [potfit_h, declarations_of_append, declarations_of_eq_nil _ _ h1,
    declarations_of_eq_nil _ _ h2, declarations_of_eq_nil _ _ h3]

theorem declared_MPI_ANGL (b : Build) :
    declared "MPI_ANGL" (potfit_h b) = (b.MPI && THREEBODY b) := by
  simp [declared, mentions, any_ite, tok_beq, potfit_h, globals, system_variables,
    general_settings, configurations, potential_variables, optimization_variables,
    force_vector_pointers, memory_and_mpi, misc_variables, electrostatic_variables,
    function_pointers, function_prototypes, interaction, rescale_and_mpi, EXTERN, INIT]

theorem declared_dummy_p (b : Build) :
    declared "dummy_p" (potfit_h b) = (EAM b || b.ADP || b.MEAM) := by
  simp [declared, mentions, any_ite, tok_beq, potfit_h, globals, system_variables,
    general_settings, configurations, potential_variables, optimization_variables,
    force_vector_pointers, memory_and_mpi, misc_variables, electrostatic_variables,
    function_pointers, function_prototypes, interaction, rescale_and_mpi, EXTERN, INIT]

theorem declared_limit_p (b : Build) :
    declared "limit_p" (potfit_h b) = (EAM b || b.ADP || b.MEAM) := by
  simp [declared, mentions, any_ite, tok_beq, potfit_h, globals, system_variables,
    general_settings, configurations, potential_variables, optimization_variables,
    force_vector_pointers, memory_and_mpi, misc_variables, electrostatic_variables,
    function_pointers, function_prototypes, interaction, rescale_and_mpi, EXTERN, INIT]

theorem declared_lambda (b : Build) :
    declared "lambda" (potfit_h b) = (EAM b || b.ADP || b.MEAM) := by
  simp [declared, mentions, any_ite, tok_beq, potfit_h, globals, system_variables,
    general_settings, configurations, potential_variables, optimization_variables,
    force_vector_pointers, memory_and_mpi, misc_variables, electrostatic_variables,
    function_pointers, function_prototypes, interaction, rescale_and_mpi, EXTERN, INIT]

theorem EAM_eq (b : Build) : EAM b = (b.EAM || b.TBEAM) := by
  cases h1 : b.EAM <;> cases h2 : b.TBEAM <;> simp [EAM, h1, h2]

/-! ### The claims about the headers -/

/-- C1: for every combination of the predefined symbols `SLOTS` is 4 if `ADP`
is defined, otherwise 3 if `TBEAM` or `MEAM` is, otherwise 2 if `EAM` or
`STIWEB` is, otherwise 1; and in every build that selects exactly one model of
the header's table, `SLOTS` is the slot count the table documents for it. -/
theorem SLOTS_documented (b : Build) :
    SLOTS b = (if b.ADP then 4 else if b.TBEAM || b.MEAM then 3
      else if b.EAM || b.STIWEB then 2 else 1) ∧
    ∀ m : Model, b.selectsOnly m → SLOTS b = documented_SLOTS m := by
  constructor
  · rcases b with ⟨p, e, t, a, c, d, m, s, tf, tm, mpi, main, apot, evo, stress, contrib⟩
    cases a <;> cases t <;> cases m <;> cases e <;> cases s <;> rfl
  · intro m h
    have hP := h .PAIR
    have hC := h .COULOMB
    have hD := h .DIPOLE
    have hT := h .TERSOFF
    have hE := h .EAM
    have hS := h .STIWEB
    have hB := h .TBEAM
    have hM := h .MEAM
    have hA := h .ADP
    simp only [Build.selects] at hP hC hD hT hE hS hB hM hA
    cases m <;> simp_all [SLOTS, EAM, documented_SLOTS]

/-- C1 at the build that predefines `TBEAM` only: `SLOTS` is 3. -/
theorem SLOTS_documented_witness :
    SLOTS { Build.plain with TBEAM := true } = 3 :=
  (SLOTS_documented { Build.plain with TBEAM := true }).2 .TBEAM
    (by intro k; cases k <;> simp [Build.selects, Build.plain])

/-- C2: in every build the text of `potfit.h` holds at most one declaration of
`interaction_name`, and exactly one as soon as one of `PAIR`, `EAM`, `TBEAM`,
`ADP`, `COULOMB`, `MEAM`, `STIWEB`, `TERSOFF` is predefined. -/
theorem one_interaction_name (b : Build) :
    (declarations_of "interaction_name" (potfit_h b)).length ≤ 1 ∧
    (b.PAIR = true ∨ b.EAM = true ∨ b.TBEAM = true ∨ b.ADP = true ∨ b.COULOMB = true ∨
        b.MEAM = true ∨ b.STIWEB = true ∨ b.TERSOFF = true →
      (declarations_of "interaction_name" (potfit_h b)).length = 1) := by
  rw [interaction_name_only_in_interaction, length_declarations_of]
  simp only [mentions, countP_ite, tok_beq, interaction, EXTERN, INIT, List.countP_cons,
    List.countP_nil, List.countP_append, List.any_append, List.any_cons, List.any_nil, any_ite,
    Tok.txt.injEq, String.reduceEq, decide_False, decide_True, Bool.or_false, Bool.false_or,
    Bool.or_true, Bool.true_or, reduceCtorEq, ite_self, Bool.and_false, if_true, if_false,
    Bool.false_eq_true, EAM_eq, Nat.zero_add, Nat.add_zero]
  constructor
  · split_ifs <;> simp
  · intro h
    split_ifs <;> simp_all

/-- C7: in every build the constant `DUMMY_WEIGHT` (with the value `100.0`), the
offsets `dummy_p` and `limit_p` and the array `lambda` exist exactly when `EAM`,
`TBEAM`, `ADP` or `MEAM` is predefined. -/
theorem dummy_constraints_iff_embedding (b : Build) :
    DUMMY_WEIGHT b =
      (if b.EAM || b.TBEAM || b.ADP || b.MEAM then some [Tok.txt "100.0"] else none) ∧
    declared "dummy_p" (potfit_h b) = (b.EAM || b.TBEAM || b.ADP || b.MEAM) ∧
    declared "limit_p" (potfit_h b) = (b.EAM || b.TBEAM || b.ADP || b.MEAM) ∧
    declared "lambda" (potfit_h b) = (b.EAM || b.TBEAM || b.ADP || b.MEAM) := by
  rw [declared_dummy_p, declared_limit_p, declared_lambda, DUMMY_WEIGHT, EAM_eq]
  simp

/-- C9: in every build `THREEBODY` is defined exactly when `MEAM`, `STIWEB` or
`TERSOFF` is predefined, and `MPI_ANGL` is declared exactly when `MPI` and one
of these three are. -/
theorem THREEBODY_iff (b : Build) :
    (THREEBODY b = true ↔ b.MEAM = true ∨ b.STIWEB = true ∨ b.TERSOFF = true) ∧
    (declared "MPI_ANGL" (potfit_h b) = true ↔
      b.MPI = true ∧ (b.MEAM = true ∨ b.STIWEB = true ∨ b.TERSOFF = true)) := by
  rw [declared_MPI_ANGL]
  simp [THREEBODY, or_assoc]

/-- C10: in every build each declaration of `interaction_name` is
`EXTERN const char interaction_name[n] INIT("s");` for one of the ten listed
names `s` and lengths `n`, every listed pair has `n` equal to the length of `s`
plus one, and every listed pair is declared, with its initialiser, by some build. -/
theorem interaction_name_fits (b : Build) :
    (∀ l ∈ declarations_of "interaction_name" (potfit_h b),
      ∃ p ∈ [("PAIR", 5), ("EAM", 4), ("TBEAM", 6), ("ADP", 4), ("ELSTAT", 7),
          ("EAM_ELSTAT", 11), ("MEAM", 5), ("STIWEB", 7), ("TERSOFFMOD", 11), ("TERSOFF", 8)],
        l = EXTERN b ++ [.txt "const", .txt "char", .txt "interaction_name", .txt "[",
              .int p.2, .txt "]"] ++ INIT b [.str p.1] ++ [.txt ";"] ∧
        p.2 = p.1.length + 1) ∧
    (∀ p ∈ [("PAIR", 5), ("EAM", 4), ("TBEAM", 6), ("ADP", 4), ("ELSTAT", 7),
          ("EAM_ELSTAT", 11), ("MEAM", 5), ("STIWEB", 7), ("TERSOFFMOD", 11), ("TERSOFF", 8)],
      ∃ c : Build, [.txt "const", .txt "char", .txt "interaction_name", .txt "[", .int p.2,
        .txt "]", .txt "=", .str p.1, .txt ";"] ∈ potfit_h c) := by
  constructor
  · intro l hl
    rw [interaction_name_only_in_interaction] at hl
    simp only [declarations_of, List.mem_filter] at hl
    obtain ⟨hmem, hment⟩ := hl
    unfold interaction at hmem
    split_ifs at hmem <;>
      simp only [List.mem_singleton, List.mem_cons, List.mem_append, List.not_mem_nil,
        or_false] at hmem
    · exact ⟨("PAIR", 5), by simp, hmem, by decide⟩
    · exact ⟨("EAM", 4), by simp, hmem, by decide⟩
    · exact ⟨("TBEAM", 6), by simp, hmem, by decide⟩
    · exact ⟨("ADP", 4), by simp, hmem, by decide⟩
    · exact ⟨("ELSTAT", 7), by simp, hmem, by decide⟩
    · exact ⟨("EAM_ELSTAT", 11), by simp, hmem, by decide⟩
    · exact ⟨("MEAM", 5), by simp, hmem, by decide⟩
    · rcases hmem with hmem | hmem
      · exact ⟨("STIWEB", 7), by simp, hmem, by decide⟩
      · subst hmem
        simp [mentions, tok_beq] at hment
    · rcases hmem with hmem | hmem
      · exact ⟨("TERSOFFMOD", 11), by simp, hmem, by decide⟩
      · subst hmem
        simp [mentions, tok_beq] at hment
    · rcases hmem with hmem | hmem
      · exact ⟨("TERSOFF", 8), by simp, hmem, by decide⟩
      · subst hmem
        simp [mentions, tok_beq] at hment
  · intro p hp
    simp only [List.mem_cons, List.mem_singleton, List.not_mem_nil, or_false] at hp
    rcases hp with h | h | h | h | h | h | h | h | h | h <;> subst h
    · exact ⟨{ Build.plain with MAIN := true, PAIR := true }, by
        simp [potfit_h, interaction, EXTERN, INIT, Build.plain]⟩
    · exact ⟨{ Build.plain with MAIN := true, EAM := true }, by
        simp [potfit_h, interaction, EXTERN, INIT, EAM, Build.plain]⟩
    · exact ⟨{ Build.plain with MAIN := true, TBEAM := true }, by
        simp [potfit_h, interaction, EXTERN, INIT, EAM, Build.plain]⟩
    · exact ⟨{ Build.plain with MAIN := true, ADP := true }, by
        simp [potfit_h, interaction, EXTERN, INIT, EAM, Build.plain]⟩
    · exact ⟨{ Build.plain with MAIN := true, COULOMB := true }, by
        simp [potfit_h, interaction, EXTERN, INIT, EAM, Build.plain]⟩
    · exact ⟨{ Build.plain with MAIN := true, COULOMB := true, EAM := true }, by
        simp [potfit_h, interaction, EXTERN, INIT, EAM, Build.plain]⟩
    · exact ⟨{ Build.plain with MAIN := true, MEAM := true }, by
        simp [potfit_h, interaction, EXTERN, INIT, EAM, Build.plain]⟩
    · exact ⟨{ Build.plain with MAIN := true, STIWEB := true }, by
        simp [potfit_h, interaction, EXTERN, INIT, EAM, Build.plain]⟩
    · exact ⟨{ Build.plain with MAIN := true, TERSOFF := true, TERSOFFMOD := true }, by
        simp [potfit_h, interaction, EXTERN, INIT, EAM, Build.plain]⟩
    · exact ⟨{ Build.plain with MAIN := true, TERSOFF := true }, by
        simp [potfit_h, interaction, EXTERN, INIT, EAM, Build.plain]⟩

/-- C8, where the code departs from it: `kim/kim.h` declares the global
`OptParamAllConfig` in line 44 without `EXTERN`, so that in every build, with
`MAIN` or without, the text holds the definition `OptParamType * OptParamAllConfig ;`
and no `extern` declaration of it. In `potfit.h` the convention holds: a line
`EXTERN T INIT(d);` is `T = d;` with `MAIN` and `extern T;` without; without
`MAIN` every line of the globals starts with `extern` and has no initialiser,
and with `MAIN` none of them holds `extern`. -/
theorem OptParamAllConfig_not_extern (b : Build) :
    declarations_of "OptParamAllConfig" (kim_h b) =
      [[.txt "OptParamType", .txt "*", .txt "OptParamAllConfig", .txt ";"]] ∧
    (∀ T d : List Tok, EXTERN b ++ T ++ INIT b d ++ [.txt ";"] =
      if b.MAIN then T ++ .txt "=" :: d ++ [.txt ";"] else .txt "extern" :: T ++ [.txt ";"]) ∧
    (b.MAIN = false →
      ∀ l ∈ globals b, l.head? = some (.txt "extern") ∧ mentions "=" l = false) ∧
    (b.MAIN = true → ∀ l ∈ globals b, mentions "extern" l = false) := by
  refine ⟨?_, ?_, ?_, ?_⟩
  · simp [declarations_of, mentions, filter_ite, tok_beq, kim_h]
  · intro T d
    cases h : b.MAIN <;> simp [EXTERN, INIT, h]
  · intro h
    have hall : (globals b).all
        (fun l => decide (l.head? = some (.txt "extern")) && !mentions "=" l) = true := by
      simp [globals, system_variables, general_settings, configurations, potential_variables,
        optimization_variables, force_vector_pointers, memory_and_mpi, misc_variables,
        electrostatic_variables, function_pointers, EXTERN, INIT, h, all_ite, mentions,
        tok_beq]
    intro l hl
    have := List.all_eq_true.mp hall l hl
    simpa using this
  · intro h
    have hall : (globals b).all (fun l => !mentions "extern" l) = true := by
      simp [globals, system_variables, general_settings, configurations, potential_variables,
        optimization_variables, force_vector_pointers, memory_and_mpi, misc_variables,
        electrostatic_variables, function_pointers, EXTERN, INIT, h, all_ite, mentions,
        tok_beq]
    intro l hl
    have := List.all_eq_true.mp hall l hl
    simpa using this

/-! ## Theorems on the neighbor protocol

### The layout of the neighbor list -/

theorem begin_indices_getD (cs : List Nat) (start i : Nat) (h : i < cs.length) :
    (begin_indices cs start).getD i 0 = start + (cs.take i).sum := by
  induction cs generalizing start i with
  | nil => simp at h
  | cons c cs ih =>
    cases i with
    | zero => simp [begin_indices]
    | succ k =>
      have hk : k < cs.length := by simpa using h
      simp only [begin_indices, List.getD_cons_succ, ih (start + c) k hk, List.take_succ_cons,
        List.sum_cons]
      omega

theorem flatten_block {α : Type} (L : List (List α)) (i : Nat) (h : i < L.length) :
    (L.flatten.drop ((L.map List.length).take i).sum).take ((L.map List.length).getD i 0) =
      L.getD i [] := by
  induction L generalizing i with
  | nil => simp at h
  | cons l L ih =>
    cases i with
    | zero => simp
    | succ k =>
      have hk : k < L.length := by simpa using h
      simp only [List.map_cons, List.take_succ_cons, List.sum_cons, List.flatten_cons,
        List.getD_cons_succ]
      rw [List.drop_append]
      exact ih k hk

theorem Rij_block_length (l : List Neighbor) : ((l.map Rij).flatten).length = DIM * l.length := by
  induction l with
  | nil => rfl
  | cons n l ih =>
    simp only [List.map_cons, List.flatten_cons, List.length_append, ih, List.length_cons, Rij,
      List.length_nil, DIM]
    omega

theorem sum_take_scaled (cs : List Nat) (i : Nat) :
    ((cs.map (fun c => DIM * c)).take i).sum = DIM * (cs.take i).sum := by
  induction cs generalizing i with
  | nil => simp
  | cons c cs ih =>
    cases i with
    | zero => simp
    | succ k => simp [ih k, Nat.mul_add]

/-- C5: after `PublishCutoff` has published the cutoff `c` and the neighbor list
has been set up, a locator request for an atom of the configuration succeeds and
returns exactly the neighbors of that atom whose distance is below `c`: their
number, their indices and their vectors. The atom at position `i` of the
configuration is requested and returned by the index `i + 1`. -/
theorem get_neigh_after_PublishCutoff (pkim : KimObject) (conf : List Atom) (c : ℚ) (i : Nat)
    (hi : i < conf.length) :
    (setup_neighbors (PublishCutoff pkim c) conf).map
        (fun k => (get_neigh k (.locator (i + 1))).2) =
      some (.ok
        { part := i + 1
          numnei := (conf[i].neighbors.filter (fun n => n.distance < c)).length
          nei1part :=
            (conf[i].neighbors.filter (fun n => n.distance < c)).map (fun n => n.atom + 1)
          Rij := ((conf[i].neighbors.filter (fun n => n.distance < c)).map Rij).flatten }) := by
  have hN : (List.map List.length (List.map (within_cutoff c) conf)).getD i 0 =
      (conf[i].neighbors.filter (fun n => n.distance < c)).length := by
    simp [List.getD_eq_getElem?_getD, List.getElem?_eq_getElem hi, within_cutoff]
  have hB := begin_indices_getD (List.map List.length (List.map (within_cutoff c) conf)) 0 i
    (by simpa using hi)
  have h1 := flatten_block
    (List.map (fun l => l.map (fun n => n.atom + 1)) (List.map (within_cutoff c) conf)) i
    (by simpa using hi)
  have h2 := flatten_block
    (List.map (fun l => (l.map Rij).flatten) (List.map (within_cutoff c) conf)) i
    (by simpa using hi)
  have e1 : List.map List.length
      (List.map (fun l => l.map (fun n => n.atom + 1)) (List.map (within_cutoff c) conf)) =
      List.map List.length (List.map (within_cutoff c) conf) := by
    simp [List.map_map, Function.comp_def]
  have e2 : List.map List.length
      (List.map (fun l => (l.map Rij).flatten) (List.map (within_cutoff c) conf)) =
      List.map (fun k => DIM * k) (List.map List.length (List.map (within_cutoff c) conf)) := by
    simp only [List.map_map]
    apply List.map_congr_left
    intro a _
    exact Rij_block_length _
  rw [e1, hN] at h1
  rw [e2, sum_take_scaled] at h2
  have hN2 : (List.map (fun k => DIM * k)
      (List.map List.length (List.map (within_cutoff c) conf))).getD i 0 =
      DIM * (conf[i].neighbors.filter (fun n => n.distance < c)).length := by
    simp [List.getD_eq_getElem?_getD, List.getElem?_eq_getElem hi, within_cutoff]
  rw [hN2] at h2
  simp only [Nat.zero_add] at hB
  have hr : 1 ≤ i + 1 ∧ i + 1 ≤ conf.length := ⟨by omega, by omega⟩
  simp only [setup_neighbors, PublishCutoff, Option.map_some', get_neigh, List.length_map, hr,
    and_self, if_true, Nat.add_sub_cancel, neighbors_of, hN, hB, h1, h2]
  simp [List.getD_eq_getElem?_getD, List.getElem?_eq_getElem hi, within_cutoff]

/-- C5 at the scenario: with the cutoff 5.0 published, an atom whose only
neighbor is at distance 4.9 gets one neighbor, and an atom whose only neighbor
is at distance 5.1 gets none. -/
theorem get_neigh_after_PublishCutoff_witness :
    (setup_neighbors (PublishCutoff ⟨none, none⟩ 5)
        [⟨[⟨1, 49 / 10, ⟨1, 0, 0⟩⟩]⟩, ⟨[]⟩]).map (fun k => (get_neigh k (.locator 1)).2) =
      some (.ok ⟨1, 1, [2], [49 / 10, 0, 0]⟩) ∧
    (setup_neighbors (PublishCutoff ⟨none, none⟩ 5)
        [⟨[⟨1, 51 / 10, ⟨1, 0, 0⟩⟩]⟩, ⟨[]⟩]).map (fun k => (get_neigh k (.locator 1)).2) =
      some (.ok ⟨1, 0, [], []⟩) := by
  constructor
  · rw [get_neigh_after_PublishCutoff ⟨none, none⟩ _ 5 0 (by simp)]
    norm_num [Rij]
  · rw [get_neigh_after_PublishCutoff ⟨none, none⟩ _ 5 0 (by simp)]
    norm_num [Rij]

end Potfit
